import Mathlib

/-!
Shallow embedding of the BLE device-control screen (`DeviceControl` in the
repository's single logic file): the command byte table, the scan callback's
device-registry update, and the async handlers `startScan`, `connectToDevice`,
`disconnectDevice`, `sendCommand` and `toggleBreathingMode`, each modelled as a
pure function of the component state plus the outcomes of the external
adapter calls it awaits.  Effects (alerts, console logs, characteristic
writes, thrown exceptions) are recorded explicitly in result structures.
-/

namespace SyncControl

/-- A discovered BLE peripheral as the code uses it: `device.id` and
`device.name` are the only fields consulted. -/
structure Device where
  id : String
  name : String
deriving DecidableEq, Repr

/-- `BLE_CONFIG` object: the service and characteristic UUID strings. -/
structure BleConfig where
  SERVICE_UUID : String
  WRITE_CHARACTERISTIC : String
  READ_ANGLE_CHARACTERISTIC : String
deriving DecidableEq, Repr

def BLE_CONFIG : BleConfig :=
  { SERVICE_UUID := "000000ff-0000-1000-8000-00805f9b34fb"
    WRITE_CHARACTERISTIC := "0000ff03-0000-1000-8000-00805f9b34fb"
    READ_ANGLE_CHARACTERISTIC := "0000ff04-0000-1000-8000-00805f9b34fb" }

/-- The logical motor commands: the five keys of the `MOTOR_COMMANDS` object. -/
inductive MotorCommand where
  | FORWARD
  | REVERSE
  | STOP
  | START_BREATHING
  | STOP_BREATHING
deriving DecidableEq, Repr

/-- The `MOTOR_COMMANDS` byte table, byte for byte from the source. -/
def MOTOR_COMMANDS : MotorCommand → List Nat
  | .FORWARD => [0x01, 0x03]
  | .REVERSE => [0x01, 0x01]
  | .STOP => [0x01, 0x00]
  | .START_BREATHING => [0x01, 0x01, 0x01]
  | .STOP_BREATHING => [0x01, 0x00, 0x01]

/-- The component's state hooks that the claims touch: `isScanning`,
`connectedDevice`, `devices`, `breathingMode` (`sliderValues` is pure UI and
is not consulted by any modelled handler). -/
structure DeviceControlState where
  isScanning : Bool
  connectedDevice : Option Device
  devices : List Device
  breathingMode : Bool
deriving DecidableEq, Repr

/-- Outcome of an awaited adapter call (a resolved or rejected promise). -/
inductive AdapterResult where
  | ok
  | err (msg : String)
deriving DecidableEq, Repr

/-! ## Base64 framing

`Buffer.from(command).toString('base64')`: standard RFC 4648 base64 with
padding over the raw bytes. -/

def base64Alphabet : List Char :=
  "ABCDEFGHIJKLMNOPQRSTUVWXYZabcdefghijklmnopqrstuvwxyz0123456789+/".toList

def base64Digit (n : Nat) : Char := base64Alphabet.getD n 'A'

/-- Base64 encoding of a byte list (each entry taken mod 256), with `=`
padding, as `Buffer.toString('base64')` produces. -/
def base64Encode : List Nat → String
  | [] => ""
  | [b0] =>
    String.mk [base64Digit ((b0 % 256) / 4), base64Digit ((b0 % 4) * 16)] ++ "=="
  | [b0, b1] =>
    String.mk [base64Digit ((b0 % 256) / 4),
               base64Digit ((b0 % 4) * 16 + (b1 % 256) / 16),
               base64Digit ((b1 % 16) * 4)] ++ "="
  | b0 :: b1 :: b2 :: rest =>
    String.mk [base64Digit ((b0 % 256) / 4),
               base64Digit ((b0 % 4) * 16 + (b1 % 256) / 16),
               base64Digit ((b1 % 16) * 4 + (b2 % 256) / 64),
               base64Digit (b2 % 64)] ++ base64Encode rest

/-! ## Scan callback and the device registry

The callback passed to `manager.startDeviceScan` receives either an error or
an advertised device.  On error it logs and sets `isScanning` false; on a
device whose `name` is exactly `"SYNC"` and whose `id` is not already present
it appends the device to `devices`. -/

/-- One delivery of the scan callback: either an adapter error or an
advertised peripheral. -/
inductive ScanEvent where
  | error (msg : String)
  | adv (device : Device)
deriving DecidableEq, Repr

/-- One invocation of the scan callback, acting on the `devices` list and the
`isScanning` flag (the only state the callback touches). -/
def scanStep : List Device × Bool → ScanEvent → List Device × Bool
  | (devs, _), .error _ => (devs, false)
  | (devs, scanning), .adv d =>
    if d.name = "SYNC" then
      if (devs.find? fun x => x.id == d.id).isSome then (devs, scanning)
      else (devs ++ [d], scanning)
    else (devs, scanning)

/-- The whole scan window: the callback folded over the delivered events,
starting from the freshly cleared registry (`setDevices([])`,
`setIsScanning(true)`). -/
def runScanEvents (events : List ScanEvent) : List Device × Bool :=
  events.foldl scanStep ([], true)

/-- Result of a `startScan` call: the component state after the call (and,
when a scan actually ran, after its 5-second timeout), the alerts shown,
whether `manager.startDeviceScan` was invoked, and whether
`setIsScanning(true)` ever ran. -/
structure ScanOutcome where
  state : DeviceControlState
  alerts : List (String × String)
  scanStarted : Bool
  enteredScanning : Bool
deriving DecidableEq, Repr

/-- `startScan`: permission gate first, then the repeat-scan guard, then
clear the registry, scan, and stop on the timeout. -/
def startScan (st : DeviceControlState) (permissionGranted : Bool)
    (events : List ScanEvent) : ScanOutcome :=
  if !permissionGranted then
    { state := st
      alerts := [("Error", "Bluetooth permissions are required to continue")]
      scanStarted := false
      enteredScanning := false }
  else if st.isScanning then
    { state := st, alerts := [], scanStarted := false, enteredScanning := false }
  else
    { state := { st with isScanning := false, devices := (runScanEvents events).1 }
      alerts := []
      scanStarted := true
      enteredScanning := true }

/-! ## sendCommand -/

/-- One call of `writeCharacteristicWithResponseForService`. -/
structure WriteCall where
  serviceUUID : String
  characteristicUUID : String
  payload : String
  withResponse : Bool
deriving DecidableEq, Repr

/-- Result of an async handler: state after the call, characteristic writes
issued, alerts shown, console logs, and the exception the call rejected with
(none when it returned normally). -/
structure SendResult where
  state : DeviceControlState
  writes : List WriteCall
  alerts : List (String × String)
  logs : List String
  thrown : Option String
deriving DecidableEq, Repr

/-- `sendCommand(command)`: guard on `connectedDevice`, frame the bytes as
base64, issue one write-with-response and await it; the `catch` turns an
adapter rejection into an alert, so the call itself never rejects. -/
def sendCommand (st : DeviceControlState) (command : List Nat)
    (writeOutcome : AdapterResult) : SendResult :=
  match st.connectedDevice with
  | none =>
    { state := st
      writes := []
      alerts := [("Error", "Please connect to a device first")]
      logs := []
      thrown := none }
  | some _ =>
    let base64Command := base64Encode command
    let w : WriteCall :=
      { serviceUUID := BLE_CONFIG.SERVICE_UUID
        characteristicUUID := BLE_CONFIG.WRITE_CHARACTERISTIC
        payload := base64Command
        withResponse := true }
    match writeOutcome with
    | .ok =>
      { state := st, writes := [w], alerts := [], logs := ["Command sent"], thrown := none }
    | .err _ =>
      { state := st
        writes := [w]
        alerts := [("Error", "Failed to send command")]
        logs := ["Send command error"]
        thrown := none }

/-- `toggleBreathingMode()`: awaits `sendCommand` with the mode-dependent
command inside a `try`, then flips `breathingMode`; the `catch` (alerting
"Failed to toggle breathing mode") only runs if `sendCommand` rejected. -/
def toggleBreathingMode (st : DeviceControlState)
    (writeOutcome : AdapterResult) : SendResult :=
  let command :=
    if st.breathingMode then MOTOR_COMMANDS MotorCommand.STOP_BREATHING
    else MOTOR_COMMANDS MotorCommand.START_BREATHING
  let r := sendCommand st command writeOutcome
  match r.thrown with
  | some _ =>
    { r with
      thrown := none
      alerts := r.alerts ++ [("Error", "Failed to toggle breathing mode")] }
  | none =>
    { r with state := { r.state with breathingMode := !st.breathingMode } }

/-! ## connectToDevice and disconnectDevice -/

/-- Combined outcome of the two awaited connection steps:
`device.connect()` and `discoverAllServicesAndCharacteristics()`. -/
inductive ConnectOutcome where
  | connectFail (msg : String)
  | discoverFail (msg : String)
  | success
deriving DecidableEq, Repr

/-- Result of `connectToDevice`: state and alerts (the handler never
rethrows; its `try`/`catch` converts both step failures into an alert). -/
structure ConnectResult where
  state : DeviceControlState
  alerts : List (String × String)
deriving DecidableEq, Repr

/-- `connectToDevice(device)`: `setConnectedDevice` runs only when both
awaited steps succeed; any failure lands in the `catch`, which alerts and
leaves the state untouched. -/
def connectToDevice (st : DeviceControlState) (device : Device)
    (outcome : ConnectOutcome) : ConnectResult :=
  match outcome with
  | .connectFail _ =>
    { state := st, alerts := [("Error", "Failed to connect to device")] }
  | .discoverFail _ =>
    { state := st, alerts := [("Error", "Failed to connect to device")] }
  | .success =>
    { state := { st with connectedDevice := some device }
      alerts := [("Success", "Connected to device " ++ device.name)] }

/-- Result of `disconnectDevice`: state, alerts, and the exception the call
rejected with, if any (`cancelConnection()` is awaited with no `try`/`catch`,
so its rejection propagates to the caller). -/
structure DisconnectResult where
  state : DeviceControlState
  alerts : List (String × String)
  thrown : Option String
deriving DecidableEq, Repr

/-- `disconnectDevice()`: no-op when no device is connected; otherwise awaits
`cancelConnection()` unguarded, then clears `connectedDevice` and alerts
success. -/
def disconnectDevice (st : DeviceControlState)
    (outcome : AdapterResult) : DisconnectResult :=
  match st.connectedDevice with
  | none => { state := st, alerts := [], thrown := none }
  | some _ =>
    match outcome with
    | .ok =>
      { state := { st with connectedDevice := none }
        alerts := [("Success", "Device disconnected successfully")]
        thrown := none }
    | .err m => { state := st, alerts := [], thrown := some m }

end SyncControl

namespace SyncControl

/-- C3: the command codec is a total, deterministic, pure mapping: it is a
Lean function `MotorCommand → List Nat`, and each of the five defined commands
maps to exactly the fixed byte sequence of the source table. -/
theorem motor_commands_table :
    MOTOR_COMMANDS MotorCommand.FORWARD = [0x01, 0x03] ∧
    MOTOR_COMMANDS MotorCommand.REVERSE = [0x01, 0x01] ∧
    MOTOR_COMMANDS MotorCommand.STOP = [0x01, 0x00] ∧
    MOTOR_COMMANDS MotorCommand.START_BREATHING = [0x01, 0x01, 0x01] ∧
    MOTOR_COMMANDS MotorCommand.STOP_BREATHING = [0x01, 0x00, 0x01] := by
  refine ⟨rfl, rfl, rfl, rfl, rfl⟩

/-- One scan-callback invocation preserves the registry invariants: distinct
ids and all names equal to the filter string. -/
theorem scanStep_preserves (acc : List Device × Bool) (e : ScanEvent)
    (h1 : acc.1.Pairwise fun a b => a.id ≠ b.id)
    (h2 : ∀ d ∈ acc.1, d.name = "SYNC") :
    ((scanStep acc e).1.Pairwise fun a b => a.id ≠ b.id) ∧
    ∀ d ∈ (scanStep acc e).1, d.name = "SYNC" := by
  obtain ⟨devs, scanning⟩ := acc
  cases e with
  | error m => exact ⟨h1, h2⟩
  | adv d =>
    simp only [scanStep]
    by_cases hname : d.name = "SYNC"
    · rw [if_pos hname]
      by_cases hfound : (devs.find? fun x => x.id == d.id).isSome
      · rw [if_pos hfound]
        exact ⟨h1, h2⟩
      · rw [if_neg hfound]
        have hnone : (devs.find? fun x => x.id == d.id) = none :=
          Option.not_isSome_iff_eq_none.mp hfound
        constructor
        · rw [List.pairwise_append]
          refine ⟨h1, List.pairwise_singleton _ _, ?_⟩
          intro a ha b hb
          rw [List.mem_singleton] at hb
          subst hb
          have hfind := List.find?_eq_none.mp hnone a ha
          simpa using hfind
        · intro x hx
          rcases List.mem_append.mp hx with h | h
          · exact h2 x h
          · rw [List.mem_singleton] at h
            subst h
            exact hname
    · rw [if_neg hname]
      exact ⟨h1, h2⟩

/-- The registry invariants hold after folding the callback over any suffix of
events, from any accumulator satisfying them. -/
theorem scanFold_preserves (events : List ScanEvent) (acc : List Device × Bool)
    (h1 : acc.1.Pairwise fun a b => a.id ≠ b.id)
    (h2 : ∀ d ∈ acc.1, d.name = "SYNC") :
    ((events.foldl scanStep acc).1.Pairwise fun a b => a.id ≠ b.id) ∧
    ∀ d ∈ (events.foldl scanStep acc).1, d.name = "SYNC" := by
  induction events generalizing acc with
  | nil => exact ⟨h1, h2⟩
  | cons e rest ih =>
    rw [List.foldl_cons]
    obtain ⟨p1, p2⟩ := scanStep_preserves acc e h1 h2
    exact ih (scanStep acc e) p1 p2

/-- C2: for every sequence of advertisement events delivered during a scan,
the discovered-device list has no two entries with the same id, contains only
peripherals advertising exactly the case-sensitive name "SYNC", every
callback invocation only ever appends at the end of the list (so first-seen
order is preserved), and an advertisement that fails the name filter or whose
id is already present leaves the list unchanged. -/
theorem scan_registry_invariants (events : List ScanEvent) :
    ((runScanEvents events).1.Pairwise (fun a b => a.id ≠ b.id) ∧
      ∀ d ∈ (runScanEvents events).1, d.name = "SYNC") ∧
    (∀ acc : List Device × Bool, ∀ d : Device,
      (d.name ≠ "SYNC" ∨ (acc.1.find? fun x => x.id == d.id).isSome = true) →
      (scanStep acc (ScanEvent.adv d)).1 = acc.1) ∧
    (∀ acc : List Device × Bool, ∀ e : ScanEvent,
      ∃ tail, (scanStep acc e).1 = acc.1 ++ tail) := by
  refine ⟨?_, ?_, ?_⟩
  · exact scanFold_preserves events ([], true) (List.Pairwise.nil) (by intro d hd; cases hd)
  · intro acc d h
    obtain ⟨devs, scanning⟩ := acc
    rcases h with h | h
    · simp only [scanStep, if_neg h]
    · simp only [scanStep]
      by_cases hname : d.name = "SYNC"
      · rw [if_pos hname, if_pos h]
      · rw [if_neg hname]
  · intro acc e
    obtain ⟨devs, scanning⟩ := acc
    cases e with
    | error m => exact ⟨[], (List.append_nil devs).symm⟩
    | adv d =>
      simp only [scanStep]
      by_cases hname : d.name = "SYNC"
      · rw [if_pos hname]
        by_cases hfound : (devs.find? fun x => x.id == d.id).isSome
        · rw [if_pos hfound]
          exact ⟨[], (List.append_nil devs).symm⟩
        · rw [if_neg hfound]
          exact ⟨[d], rfl⟩
      · rw [if_neg hname]
        exact ⟨[], (List.append_nil devs).symm⟩

/-- Witness for C2: the no-change clause applied at a concrete registry and a
concrete non-matching advertisement. -/
theorem scan_registry_invariants_witness :
    (scanStep ([Device.mk "a" "SYNC"], true)
        (ScanEvent.adv (Device.mk "b" "OTHER"))).1 = [Device.mk "a" "SYNC"] :=
  (scan_registry_invariants []).2.1 ([Device.mk "a" "SYNC"], true)
    (Device.mk "b" "OTHER") (Or.inl (by decide))

/-- C4: while a device is connected, `sendCommand` issues exactly one
write-with-response carrying the command bytes framed as base64, addressed to
the write characteristic of the configured service; the session state is
untouched, and the success log is emitted exactly when the awaited write
resolved (the peripheral acknowledged). -/
theorem sendCommand_ready_write (st : DeviceControlState) (d : Device)
    (command : List Nat) (outcome : AdapterResult)
    (h : st.connectedDevice = some d) :
    (sendCommand st command outcome).writes =
      [{ serviceUUID := BLE_CONFIG.SERVICE_UUID
         characteristicUUID := BLE_CONFIG.WRITE_CHARACTERISTIC
         payload := base64Encode command
         withResponse := true }] ∧
    ("Command sent" ∈ (sendCommand st command outcome).logs ↔
      outcome = AdapterResult.ok) ∧
    (sendCommand st command outcome).state = st := by
  cases outcome with
  | ok => simp [sendCommand, h]
  | err m =>
    refine ⟨by simp [sendCommand, h], ?_, by simp [sendCommand, h]⟩
    constructor
    · intro hmem
      simp only [sendCommand, h] at hmem
      rw [List.mem_singleton] at hmem
      exact absurd hmem (by decide)
    · intro hk
      cases hk

/-- Witness for C4: send `[0x01, 0x03]` (Forward) from a concrete connected
state with an acknowledged write; the framed payload evaluates to "AQM=". -/
theorem sendCommand_ready_write_witness :
    (sendCommand (DeviceControlState.mk false (some (Device.mk "id1" "SYNC")) [] false)
        [0x01, 0x03] AdapterResult.ok).writes =
      [{ serviceUUID := BLE_CONFIG.SERVICE_UUID
         characteristicUUID := BLE_CONFIG.WRITE_CHARACTERISTIC
         payload := base64Encode [0x01, 0x03]
         withResponse := true }] ∧
    ("Command sent" ∈
      (sendCommand (DeviceControlState.mk false (some (Device.mk "id1" "SYNC")) [] false)
        [0x01, 0x03] AdapterResult.ok).logs ↔ AdapterResult.ok = AdapterResult.ok) ∧
    (sendCommand (DeviceControlState.mk false (some (Device.mk "id1" "SYNC")) [] false)
        [0x01, 0x03] AdapterResult.ok).state =
      DeviceControlState.mk false (some (Device.mk "id1" "SYNC")) [] false :=
  sendCommand_ready_write _ (Device.mk "id1" "SYNC") _ _ rfl

/-- The base64 framing of the Forward bytes is the concrete string "AQM=". -/
theorem base64_forward_eval : base64Encode [0x01, 0x03] = "AQM=" := by decide

/-- C5: `sendCommand` called while no device is connected alerts the
not-connected error, performs no characteristic write, leaves the state
unchanged and returns normally. -/
theorem sendCommand_not_connected (st : DeviceControlState) (command : List Nat)
    (outcome : AdapterResult) (h : st.connectedDevice = none) :
    (sendCommand st command outcome).writes = [] ∧
    (sendCommand st command outcome).alerts =
      [("Error", "Please connect to a device first")] ∧
    (sendCommand st command outcome).state = st ∧
    (sendCommand st command outcome).thrown = none := by
  simp [sendCommand, h]

/-- Witness for C5: a concrete disconnected state. -/
theorem sendCommand_not_connected_witness :
    (sendCommand (DeviceControlState.mk false none [] false)
        [0x01, 0x03] AdapterResult.ok).writes = [] ∧
    (sendCommand (DeviceControlState.mk false none [] false)
        [0x01, 0x03] AdapterResult.ok).alerts =
      [("Error", "Please connect to a device first")] ∧
    (sendCommand (DeviceControlState.mk false none [] false)
        [0x01, 0x03] AdapterResult.ok).state =
      DeviceControlState.mk false none [] false ∧
    (sendCommand (DeviceControlState.mk false none [] false)
        [0x01, 0x03] AdapterResult.ok).thrown = none :=
  sendCommand_not_connected _ _ _ rfl

/-- C10: `sendCommand` never rejects to its caller — the internal `catch`
swallows every adapter write error — and its state result is identical for
every adapter outcome, so an awaiting caller cannot tell a failed write from
a successful one through what the call returns. -/
theorem sendCommand_never_throws (st : DeviceControlState) (command : List Nat)
    (outcome other : AdapterResult) :
    (sendCommand st command outcome).thrown = none ∧
    (sendCommand st command outcome).state = (sendCommand st command other).state := by
  cases h : st.connectedDevice with
  | none => cases outcome <;> cases other <;> simp [sendCommand, h]
  | some d => cases outcome <;> cases other <;> simp [sendCommand, h]

/-- C1 (code-bug evidence): from `breathingMode = false` with a device
connected, when the adapter write fails, `toggleBreathingMode` sends
StartBreathing, the write-failure alert is shown — and `breathingMode` is
nevertheless flipped to `true`, because `sendCommand` swallowed the error so
the flip after the `await` runs unconditionally. -/
theorem toggleBreathing_flips_despite_write_failure :
    (toggleBreathingMode
        (DeviceControlState.mk false (some (Device.mk "id1" "SYNC")) [] false)
        (AdapterResult.err "write rejected")).writes =
      [{ serviceUUID := BLE_CONFIG.SERVICE_UUID
         characteristicUUID := BLE_CONFIG.WRITE_CHARACTERISTIC
         payload := base64Encode (MOTOR_COMMANDS MotorCommand.START_BREATHING)
         withResponse := true }] ∧
    ("Error", "Failed to send command") ∈
      (toggleBreathingMode
        (DeviceControlState.mk false (some (Device.mk "id1" "SYNC")) [] false)
        (AdapterResult.err "write rejected")).alerts ∧
    (toggleBreathingMode
        (DeviceControlState.mk false (some (Device.mk "id1" "SYNC")) [] false)
        (AdapterResult.err "write rejected")).state.breathingMode = true := by
  decide

/-- C6: when either awaited connection step fails, `connectToDevice` leaves
the connected-device reference unset, reports the connection failure, and a
subsequent fresh connect on the resulting state can still succeed. -/
theorem connect_failure_resets (st : DeviceControlState) (d d2 : Device)
    (outcome : ConnectOutcome) (hfail : outcome ≠ ConnectOutcome.success)
    (h0 : st.connectedDevice = none) :
    (connectToDevice st d outcome).state.connectedDevice = none ∧
    (connectToDevice st d outcome).alerts =
      [("Error", "Failed to connect to device")] ∧
    (connectToDevice (connectToDevice st d outcome).state d2
        ConnectOutcome.success).state.connectedDevice = some d2 := by
  cases outcome with
  | success => exact absurd rfl hfail
  | connectFail m => exact ⟨h0, rfl, rfl⟩
  | discoverFail m => exact ⟨h0, rfl, rfl⟩

/-- Witness for C6: a concrete failed connect followed by a successful one. -/
theorem connect_failure_resets_witness :
    (connectToDevice (DeviceControlState.mk false none [] false)
        (Device.mk "id1" "SYNC")
        (ConnectOutcome.connectFail "timeout")).state.connectedDevice = none ∧
    (connectToDevice (DeviceControlState.mk false none [] false)
        (Device.mk "id1" "SYNC")
        (ConnectOutcome.connectFail "timeout")).alerts =
      [("Error", "Failed to connect to device")] ∧
    (connectToDevice
        (connectToDevice (DeviceControlState.mk false none [] false)
          (Device.mk "id1" "SYNC") (ConnectOutcome.connectFail "timeout")).state
        (Device.mk "id2" "SYNC")
        ConnectOutcome.success).state.connectedDevice = some (Device.mk "id2" "SYNC") :=
  connect_failure_resets _ (Device.mk "id1" "SYNC") (Device.mk "id2" "SYNC") _
    (by decide) rfl

/-- Counterexample to C7 as stated: with a device connected and the adapter
disconnect failing, `disconnectDevice` rejects (the unguarded `await
cancelConnection()` propagates) and the session stays connected — it neither
"never fails" nor "ends Disconnected regardless of the adapter's outcome". -/
theorem disconnect_adapter_failure_counterexample :
    (disconnectDevice
        (DeviceControlState.mk false (some (Device.mk "id1" "SYNC")) [] false)
        (AdapterResult.err "cancel failed")).thrown = some "cancel failed" ∧
    (disconnectDevice
        (DeviceControlState.mk false (some (Device.mk "id1" "SYNC")) [] false)
        (AdapterResult.err "cancel failed")).state.connectedDevice =
      some (Device.mk "id1" "SYNC") := by
  decide

/-- C7 (amended): `disconnectDevice` from Disconnected is a no-op that
succeeds; from a connected state it ends Disconnected and succeeds when the
adapter disconnect succeeds — so a second call in a row is a successful
no-op — but when the adapter disconnect fails, the rejection propagates to
the caller and the session remains connected. -/
theorem disconnect_behavior (st : DeviceControlState) (outcome : AdapterResult) :
    (st.connectedDevice = none →
      disconnectDevice st outcome = DisconnectResult.mk st [] none) ∧
    (∀ d, st.connectedDevice = some d → outcome = AdapterResult.ok →
      (disconnectDevice st outcome).state.connectedDevice = none ∧
      (disconnectDevice st outcome).thrown = none ∧
      (disconnectDevice st outcome).alerts =
        [("Success", "Device disconnected successfully")] ∧
      ∀ outcome2, disconnectDevice (disconnectDevice st outcome).state outcome2 =
        DisconnectResult.mk (disconnectDevice st outcome).state [] none) ∧
    (∀ d m, st.connectedDevice = some d → outcome = AdapterResult.err m →
      (disconnectDevice st outcome).thrown = some m ∧
      (disconnectDevice st outcome).state = st) := by
  refine ⟨?_, ?_, ?_⟩
  · intro h
    simp [disconnectDevice, h]
  · intro d hd hok
    subst hok
    refine ⟨by simp [disconnectDevice, hd], by simp [disconnectDevice, hd],
      by simp [disconnectDevice, hd], ?_⟩
    intro outcome2
    simp [disconnectDevice, hd]
  · intro d m hd herr
    subst herr
    exact ⟨by simp [disconnectDevice, hd], by simp [disconnectDevice, hd]⟩

/-- Witness for C7 (amended): a successful disconnect from a concrete
connected state, followed by a second call that is a successful no-op. -/
theorem disconnect_behavior_witness :
    (disconnectDevice
        (DeviceControlState.mk false (some (Device.mk "id1" "SYNC")) [] false)
        AdapterResult.ok).state.connectedDevice = none ∧
    (disconnectDevice
        (DeviceControlState.mk false (some (Device.mk "id1" "SYNC")) [] false)
        AdapterResult.ok).thrown = none ∧
    (disconnectDevice
        (DeviceControlState.mk false (some (Device.mk "id1" "SYNC")) [] false)
        AdapterResult.ok).alerts = [("Success", "Device disconnected successfully")] ∧
    ∀ outcome2,
      disconnectDevice
        (disconnectDevice
          (DeviceControlState.mk false (some (Device.mk "id1" "SYNC")) [] false)
          AdapterResult.ok).state outcome2 =
      DisconnectResult.mk
        (disconnectDevice
          (DeviceControlState.mk false (some (Device.mk "id1" "SYNC")) [] false)
          AdapterResult.ok).state [] none :=
  (disconnect_behavior
      (DeviceControlState.mk false (some (Device.mk "id1" "SYNC")) [] false)
      AdapterResult.ok).2.1 (Device.mk "id1" "SYNC") rfl rfl

/-- C8: calling `startScan` while a scan is already in progress leaves the
entire component state — the scanning flag and the in-progress device list —
unchanged, and does not start a new adapter scan or re-enter Scanning. -/
theorem startScan_noop_when_scanning (st : DeviceControlState)
    (permissionGranted : Bool) (events : List ScanEvent)
    (h : st.isScanning = true) :
    (startScan st permissionGranted events).state = st ∧
    (startScan st permissionGranted events).scanStarted = false ∧
    (startScan st permissionGranted events).enteredScanning = false := by
  cases permissionGranted <;> simp [startScan, h]

/-- Witness for C8: a concrete in-progress scan state, permission granted. -/
theorem startScan_noop_when_scanning_witness :
    (startScan
        (DeviceControlState.mk true none [Device.mk "id1" "SYNC"] false) true
        [ScanEvent.adv (Device.mk "id2" "SYNC")]).state =
      DeviceControlState.mk true none [Device.mk "id1" "SYNC"] false ∧
    (startScan
        (DeviceControlState.mk true none [Device.mk "id1" "SYNC"] false) true
        [ScanEvent.adv (Device.mk "id2" "SYNC")]).scanStarted = false ∧
    (startScan
        (DeviceControlState.mk true none [Device.mk "id1" "SYNC"] false) true
        [ScanEvent.adv (Device.mk "id2" "SYNC")]).enteredScanning = false :=
  startScan_noop_when_scanning _ _ _ rfl

/-- C9: `startScan` with the permission gate reporting not granted fails
immediately with the permission alert; the state is untouched (so Scanning is
never entered and the device list is not cleared) and no adapter scan is
started. -/
theorem startScan_permission_denied (st : DeviceControlState)
    (events : List ScanEvent) :
    (startScan st false events).state = st ∧
    (startScan st false events).alerts =
      [("Error", "Bluetooth permissions are required to continue")] ∧
    (startScan st false events).scanStarted = false ∧
    (startScan st false events).enteredScanning = false := by
  simp [startScan]

end SyncControl
